import Mathlib

/-!
Verification development for the PetLibro Home Assistant integration
(`custom_components/petlibro`).  The Python source is shallowly embedded:

* vendor JSON values become the inductive `JSON`; Python `dict`s become
  insertion-ordered association lists (`List (String × JSON)`), with
  `alookup`/`aset` matching `dict.get` / `dict[k] = v`;
* `Device.update_data` (devices/device.py) becomes `update_data`;
* `PetLibroSession.request` (api.py) becomes `sessionRequest`, with the
  scripted HTTP transport passed in explicitly as `Response` values;
* `PetLibroAPI.get_device_real_info` and its 10-second cache become
  `get_device_real_info` over an explicit `APICacheState` and clock;
* `Device.refresh` / `OneRFIDSmartFeeder.refresh` become `deviceRefresh` /
  `oneRFIDRefresh` over a scripted `ApiSim` of endpoint outcomes;
* `PetLibroHub.load_devices` / `refresh_devices` /
  `_refresh_device_if_needed` (hub.py) become `load_devices` /
  `refresh_devices` / `stepDevice` over an explicit `HubState`.

Time is modelled in integer milliseconds; Python's
`timedelta(seconds=10)` comparisons become `· < 10000`.
-/

namespace Petlibro

/-- Vendor JSON values (`api.py`'s `JSON` type alias).  Numbers are
modelled as integers: every field the claims touch is integral. -/
inductive JSON where
  | null
  | bool (b : Bool)
  | num (n : Int)
  | str (s : String)
  | arr (elems : List JSON)
  | obj (fields : List (String × JSON))

/-- A Python `dict[str, JSON]` as an insertion-ordered association list. -/
abbrev Obj := List (String × JSON)

/-- `d.get(k)`: first binding of `k` (Python dicts have unique keys, so
first = only). -/
def alookup {α : Type} : List (String × α) → String → Option α
  | [], _ => none
  | (k', v) :: rest, k => if k = k' then some v else alookup rest k

/-- `d[k] = v`: replace the first binding of `k`, or append a new one.
On unique-key lists this is exactly Python's in-place key update. -/
def aset {α : Type} : List (String × α) → String → α → List (String × α)
  | [], k, v => [(k, v)]
  | (k', v') :: rest, k, v =>
    if k = k' then (k', v) :: rest else (k', v') :: aset rest k v

/-- `d.get(k, default)` for values expected to be strings. -/
def getStrD (v : Option JSON) (d : String) : String :=
  match v with
  | some (.str s) => s
  | _ => d

/-- Python `{**old, **new}` / `old.update(new)`: every binding of `new`
written over `old`, left to right. -/
def dictUpdate (old new : Obj) : Obj :=
  new.foldl (fun acc kv => aset acc kv.1 kv.2) old

/-- One iteration of the loop in `Device.update_data`
(devices/device.py, lines 24-30): a `dict` value is merged one level
(`self._data[key] = {**self._data.get(key, {}), **value}`), any other
value plainly overwrites.  `none` is the Python `TypeError` raised by
`{**x}` when the stored value exists but is not a dict. -/
def updateEntry (st : Obj) (k : String) (v : JSON) : Option Obj :=
  match v with
  | .obj newFields =>
    match alookup st k with
    | some (.obj oldFields) => some (aset st k (.obj (dictUpdate oldFields newFields)))
    | some _ => none
    | none => some (aset st k (.obj (dictUpdate [] newFields)))
  | _ => some (aset st k v)

/-- `Device.update_data` (devices/device.py, lines 17-38): fold the
fragment's entries into `_data`; the surrounding `try/except Exception`
catches a mid-loop `TypeError`, leaving the earlier entries applied and
the remaining ones skipped. -/
def update_data (st : Obj) : Obj → Obj
  | [] => st
  | (k, v) :: rest =>
    match updateEntry st k v with
    | some st' => update_data st' rest
    | none => st

/-- `Device.__init__`: a fresh device's `_data` after
`self.update_data(data)` on an empty dict. -/
def mkDeviceState (data : Obj) : Obj := update_data [] data

/-- `Device.serial` (devices/device.py, lines 58-60):
`self._data.get("deviceSn")` (the `cast(str, ·)` is a no-op). -/
def serialOf (st : Obj) : Option JSON := alookup st "deviceSn"

/-! ## Session layer (`PetLibroSession`, api.py lines 29-163)

A single HTTP exchange is a status code plus an optional parsed body
(`none` = `resp.json()` raised).  Bodies that parse to something other
than a JSON object are not modelled: `data.get(...)` on them raises an
untyped error on a path no claim exercises. -/

structure Response where
  status : Nat
  body : Option Obj

/-- The exceptions `PetLibroSession.request` can let escape.  The first
four are the `PetLibroAPIError` (generic API error) instances it raises
itself; `invalidAuth` is `PetLibroInvalidAuth` (exceptions.py), imported
by api.py; `rawTransport` is an unwrapped transport/parse exception
propagating through code that has no `try` around it. -/
inductive ReqError where
  | parseFailure
  | badStatus (s : Nat)
  | codeError (c : Option JSON) (msg : Option JSON)
  | loginFailed
  | invalidAuth
  | rawTransport

/-- Is this error an instance of the generic `PetLibroAPIError` class? -/
def ReqError.isApiError : ReqError → Bool
  | .parseFailure => true
  | .badStatus _ => true
  | .codeError _ _ => true
  | .loginFailed => true
  | .invalidAuth => false
  | .rawTransport => false

/-- `data.get("code")` on a parsed envelope. -/
def codeOf (body : Obj) : Option JSON := alookup body "code"

/-- `data.get("data")` on a parsed envelope. -/
def dataOf (body : Obj) : JSON := (alookup body "data").getD .null

/-- `PetLibroSession.re_login` (api.py lines 111-163) on a scripted
login response: any failure (non-200 status, unparsable body, missing
`data.token`) is wrapped into a `PetLibroAPIError`; on success the new
token is returned (and stored by the caller).  The token is taken as a
string, as `self.token: str | None` expects. -/
def reLogin (loginResp : Response) : Except ReqError String :=
  match loginResp.body with
  | none => .error .loginFailed
  | some body =>
    if loginResp.status ≠ 200 then .error .loginFailed
    else
      match alookup body "data" with
      | some (.obj d) =>
        match alookup d "token" with
        | some (.str t) => .ok t
        | _ => .error .loginFailed
      | _ => .error .loginFailed

/-- What one call to `PetLibroSession.request` did: its returned value
or escaped exception, the session token afterwards, how many login
POSTs were made, and how many times the original request was sent. -/
structure SessionResult where
  result : Except ReqError JSON
  token : Option String
  logins : Nat
  attempts : Nat

/-- `PetLibroSession.request` (api.py lines 58-109) against a scripted
transport: `first` answers the original request, `login` answers the
re-login POST, `retry` answers the retried request (each consumed only
if the control flow reaches it).  Faithfully to the source:
the body is parsed before the status check; `code == 1009` triggers
`re_login` and a single retry whose envelope is returned via
`retry_data.get("data")` with no status or code check; any other
non-zero (or missing) code raises `PetLibroAPIError` with the code and
message.  (Python's `==` comparisons of a non-integer `code` against
`1009`/`0` are all false except for `bool`/float codes, which the wire
protocol never uses and this integral model does not represent.) -/
def sessionRequest (tok : Option String) (first login retry : Response) :
    SessionResult :=
  match first.body with
  | none => ⟨.error .parseFailure, tok, 0, 1⟩
  | some body =>
    if first.status ≠ 200 then ⟨.error (.badStatus first.status), tok, 0, 1⟩
    else
      match codeOf body with
      | some (.num n) =>
        if n = 1009 then
          match reLogin login with
          | .error e => ⟨.error e, tok, 1, 1⟩
          | .ok newTok =>
            match retry.body with
            | none => ⟨.error .rawTransport, some newTok, 1, 2⟩
            | some rbody => ⟨.ok (dataOf rbody), some newTok, 1, 2⟩
        else if n = 0 then ⟨.ok (dataOf body), tok, 0, 1⟩
        else ⟨.error (.codeError (some (.num n)) (alookup body "msg")), tok, 0, 1⟩
      | c => ⟨.error (.codeError c (alookup body "msg")), tok, 0, 1⟩

/-! ## Device refresh (`Device.refresh`, `OneRFIDSmartFeeder.refresh`)

Each API endpoint a refresh calls is scripted as an `Except FetchErr
Obj`: `.error .api` stands for a raised `PetLibroAPIError`, `.error
.transport` for any other exception (raw transport error). -/

inductive FetchErr where
  | api
  | transport
deriving DecidableEq

/-- Scripted outcomes of the endpoint fetches one refresh cycle makes.
`realInfo` is consulted both by the base refresh and again by
`OneRFIDSmartFeeder.refresh` (both call `api.device_real_info`). -/
structure ApiSim where
  baseInfo : Except FetchErr Obj
  realInfo : Except FetchErr Obj
  grainStatus : Except FetchErr Obj
  attributeSettings : Except FetchErr Obj

/-- The `_data` left by `Device.refresh` (devices/device.py lines
40-56).  The `try` block fetches base info then real info, builds
`data = {} |> update(base) |> update(real)` and merges it; `except
Exception` swallows every failure, leaving `_data` untouched. -/
def baseStep (st : Obj) (sim : ApiSim) : Obj :=
  match sim.baseInfo, sim.realInfo with
  | .ok b, .ok r => update_data st (dictUpdate b r)
  | _, _ => st

/-- `Device.refresh` never lets an exception escape: it resolves to the
`baseStep` state unconditionally. -/
def deviceRefresh (st : Obj) (sim : ApiSim) : Except FetchErr Obj :=
  .ok (baseStep st sim)

/-- `OneRFIDSmartFeeder.refresh` (one_rfid_smart_feeder.py lines
13-30): `super().refresh()` (which cannot raise), then grain status,
real info and attribute settings; the surrounding `except
PetLibroAPIError` absorbs an API error (skipping the variant merge),
while any other exception propagates.  On success the three fragments
are merged as one `update_data` call. -/
def oneRFIDRefresh (st : Obj) (sim : ApiSim) : Except FetchErr Obj :=
  let st1 := baseStep st sim
  match sim.grainStatus with
  | .error .api => .ok st1
  | .error .transport => .error .transport
  | .ok g =>
    match sim.realInfo with
    | .error .api => .ok st1
    | .error .transport => .error .transport
    | .ok r =>
      match sim.attributeSettings with
      | .error .api => .ok st1
      | .error .transport => .error .transport
      | .ok a =>
        .ok (update_data st1
          [("grainStatus", .obj g), ("realInfo", .obj r),
           ("getAttributeSetting", .obj a)])

/-! ## API-client cache (`PetLibroAPI.get_device_real_info`,
api.py lines 232-256) -/

/-- The mutable cache fields of `PetLibroAPI`:
`_last_api_call_times` and `_cached_responses`, keyed by
`f"{device_id}_realInfo"`-style strings. -/
structure APICacheState where
  lastCallTimes : List (String × Int)
  cachedResponses : List (String × Obj)

/-- `PetLibroAPI.get_device_real_info`: `now` is the clock reading
(`datetime.utcnow()`, in ms), `net` scripts the network exchange the
call would perform.  Returns the result, the new cache state, and
whether the network was hit.  Within 10 s of the last call the cached
response (default `{}`) is returned without touching the network;
otherwise the call is made, and on success both cache maps are updated;
on failure the error is re-wrapped into a `PetLibroAPIError` and the
cache is left unchanged. -/
def get_device_real_info (st : APICacheState) (now : Int)
    (net : Except FetchErr Obj) (deviceId : String) :
    Except FetchErr Obj × APICacheState × Bool :=
  let key := deviceId ++ "_realInfo"
  let fetch : Except FetchErr Obj × APICacheState × Bool :=
    match net with
    | .ok resp =>
      (.ok resp,
       ⟨aset st.lastCallTimes key now, aset st.cachedResponses key resp⟩,
       true)
    | .error _ => (.error .api, st, true)
  match alookup st.lastCallTimes key with
  | some t =>
    if now - t < 10000 then
      (.ok ((alookup st.cachedResponses key).getD []), st, false)
    else fetch
  | none => fetch

/-! ## Hub (`PetLibroHub`, hub.py) -/

/-- The keys of `product_name_map` (devices/__init__.py lines 14-21). -/
def knownProducts : List String :=
  ["Granary Smart Feeder", "Granary Smart Camera Feeder",
   "One RFID Smart Feeder", "Polar Wet Food Feeder",
   "Dockstream Smart Fountain", "Dockstream Smart RFID Fountain"]

/-- A constructed device object: the Python class chosen from
`product_name_map` (represented by its product-name key) plus its
`_data`. -/
structure LoadedDevice where
  typ : String
  st : Obj

/-- The hub fields `load_devices` / `refresh_devices` use: `devices`,
`loaded_device_sn` and `last_refresh_times` (keyed by serial, values in
ms). -/
structure HubState where
  devices : List LoadedDevice
  loadedSn : List String
  lastRefresh : List (String × Int)

/-- `device_data.get("deviceSn", "unknown")` in `load_devices`. -/
def snOf (entry : Obj) : String := getStrD (alookup entry "deviceSn") "unknown"

/-- `device_data.get("productName", "unknown")` in `load_devices`. -/
def nameOf (entry : Obj) : String := getStrD (alookup entry "productName") "unknown"

/-- One iteration of the loop in `PetLibroHub.load_devices` (hub.py
lines 80-101): read `deviceSn` and `productName` (default
`"unknown"`); `continue` if the serial was already loaded; append a
device only for a recognized product name (an unrecognized one is just
logged); in either case record the serial as loaded and stamp its
last-refresh time with the load time. -/
def loadOne (now : Int) (hs : HubState) (entry : Obj) : HubState :=
  if snOf entry ∈ hs.loadedSn then hs
  else
    { devices :=
        if nameOf entry ∈ knownProducts then
          hs.devices ++ [⟨nameOf entry, mkDeviceState entry⟩]
        else hs.devices,
      loadedSn := hs.loadedSn ++ [snOf entry],
      lastRefresh := aset hs.lastRefresh (snOf entry) now }

/-- `PetLibroHub.load_devices` (hub.py lines 70-105) on an
already-fetched device-list response. -/
def load_devices (hs : HubState) (deviceList : List Obj) (now : Int) : HubState :=
  deviceList.foldl (loadOne now) hs

/-- Scripted behaviour of one device's `refresh()` inside
`refresh_devices`: success yields the fragment whose merge becomes the
device's new state; the two failures distinguish
`PetLibroAPIError`-class from transport-class causes. -/
inductive RefreshBeh where
  | ok (frag : Obj)
  | errApi
  | errTransport

/-- What `_refresh_device_if_needed` did for one device. -/
inductive DevOutcome where
  | skipped
  | refreshed (newSt : Obj)
  | failed (api : Bool)

/-- The `last_refresh_times` key `_refresh_device_if_needed` uses:
`device.serial`.  A missing (Python `None`) serial is modelled by the
sentinel `"None"`. -/
def devKey (d : LoadedDevice) : String := getStrD (serialOf d.st) "None"

/-- `PetLibroHub._refresh_device_if_needed` (hub.py lines 142-161) for
one device.  The debounce check runs against the table as it stood when
the batch started (each coroutine checks before its first `await`):
strictly less than 10 s since the last refresh means skip; otherwise
`device.refresh()` runs, with an exception logged and re-raised (the
raise is captured by `gather(..., return_exceptions=True)`). -/
def stepDevice (beh : String → RefreshBeh) (last : List (String × Int))
    (now : Int) (d : LoadedDevice) : DevOutcome :=
  let run : DevOutcome :=
    match beh (devKey d) with
    | .ok frag => .refreshed (update_data d.st frag)
    | .errApi => .failed true
    | .errTransport => .failed false
  match alookup last (devKey d) with
  | some t => if now - t < 10000 then .skipped else run
  | none => run

/-- The aggregate failure `refresh_devices` may raise to the
scheduler (`UpdateFailed`). -/
inductive HubError where
  | updateFailed

/-- `PetLibroHub.refresh_devices` (hub.py lines 107-140).  An empty
device list returns `False`.  Otherwise every device is stepped
independently (`asyncio.gather` with `return_exceptions=True` collects
exceptions as values), successful refreshes update the device state and
its last-refresh time, each outcome is logged, and the method returns
`True`.  The `except` clauses that would raise `UpdateFailed` guard
only the gathering code itself, which cannot raise once per-device
exceptions are captured as values. -/
def refresh_devices (beh : String → RefreshBeh) (hs : HubState) (now : Int) :
    Except HubError Bool × HubState × List DevOutcome :=
  match hs.devices with
  | [] => (.ok false, hs, [])
  | _ =>
    let outcomes := hs.devices.map (stepDevice beh hs.lastRefresh now)
    let devices' := hs.devices.map fun d =>
      match stepDevice beh hs.lastRefresh now d with
      | .refreshed st' => ⟨d.typ, st'⟩
      | _ => d
    let last' := hs.devices.foldl
      (fun acc d =>
        match stepDevice beh hs.lastRefresh now d with
        | .refreshed _ => aset acc (devKey d) now
        | _ => acc)
      hs.lastRefresh
    (.ok true, ⟨devices', hs.loadedSn, last'⟩, outcomes)

/-! ## Granary feeder unit conversion
(`GranarySmartFeeder`, granary_smart_feeder.py lines 24-38) -/

/-- `GranarySmartFeeder.convert_unit`: `round(value / 236.588)`.  The
Python float division is modelled exactly over `ℚ`; for the integer
milliliter quantities the API delivers, `round` half-way ties are
impossible (`value / 236.588 = k + 1/2` has no integer solution), so
Python's banker's rounding and Mathlib's `round` agree, and the float
quotient is nowhere near a rounding boundary at the claim's inputs. -/
def convert_unit (value : ℚ) : ℤ := round (value / (236588 / 1000 : ℚ))

/-- `self._data.get("grainStatus", {})` restricted to the well-typed
case: a stored non-dict value would make Python's `.get` chain raise,
which no claim exercises. -/
def grainStatusOf (st : Obj) : Obj :=
  match alookup st "grainStatus" with
  | some (.obj g) => g
  | _ => []

/-- `.get("todayFeedingQuantity", 0)` as an integer. -/
def getNumD (v : Option JSON) (d : Int) : Int :=
  match v with
  | some (.num n) => n
  | _ => d

/-- `GranarySmartFeeder.today_feeding_quantity`:
`convert_unit(self._data.get("grainStatus", {}).get("todayFeedingQuantity", 0))`. -/
def today_feeding_quantity (st : Obj) : ℤ :=
  convert_unit ((getNumD (alookup (grainStatusOf st) "todayFeedingQuantity") 0 : ℤ) : ℚ)

/-- Navigate into a nested object: the fields of `st[k]` when that
value is an object, else `[]`. -/
def subObj (st : Obj) (k : String) : Obj :=
  match alookup st k with
  | some (.obj f) => f
  | _ => []

/-! ## Association-list lemmas -/

theorem alookup_aset_self {α : Type} (l : List (String × α)) (k : String) (v : α) :
    alookup (aset l k v) k = some v := by
  induction l with
  | nil => simp [aset, alookup]
  | cons p rest ih =>
    by_cases h : k = p.1
    · simp [aset, alookup, h]
    · simp [aset, alookup, h, ih]

theorem alookup_aset_ne {α : Type} (l : List (String × α)) (k k' : String) (v : α)
    (h : k ≠ k') : alookup (aset l k' v) k = alookup l k := by
  induction l with
  | nil => simp [aset, alookup, h]
  | cons p rest ih =>
    by_cases h' : k' = p.1
    · subst h'
      simp [aset, alookup, h]
    · by_cases h'' : k = p.1 <;> simp [aset, alookup, h', h'', ih]

/-- If no binding in `new` uses key `k`, `{**old, **new}` looks up `k`
exactly as `old` does. -/
theorem alookup_dictUpdate_of_not_mem (old new : Obj) (k : String)
    (h : ∀ p ∈ new, p.1 ≠ k) :
    alookup (dictUpdate old new) k = alookup old k := by
  induction new generalizing old with
  | nil => rfl
  | cons p rest ih =>
    have hp : p.1 ≠ k := h p (List.mem_cons_self p rest)
    have hrest : ∀ q ∈ rest, q.1 ≠ k := fun q hq => h q (List.mem_cons_of_mem p hq)
    show alookup (dictUpdate (aset old p.1 p.2) rest) k = alookup old k
    rw [ih (aset old p.1 p.2) hrest, alookup_aset_ne _ _ _ _ (Ne.symm hp)]

/-- Every successful `updateEntry` writes exactly one key. -/
theorem updateEntry_eq_aset (st : Obj) (k : String) (v : JSON) (st' : Obj)
    (h : updateEntry st k v = some st') : ∃ w, st' = aset st k w := by
  unfold updateEntry at h
  cases v with
  | obj newFields =>
    cases hl : alookup st k with
    | none => rw [hl] at h; exact ⟨_, (Option.some_injective _ h).symm⟩
    | some u =>
      rw [hl] at h
      cases u <;> simp at h
      exact ⟨_, h.symm⟩
  | null => exact ⟨_, (Option.some_injective _ h).symm⟩
  | bool b => exact ⟨_, (Option.some_injective _ h).symm⟩
  | num n => exact ⟨_, (Option.some_injective _ h).symm⟩
  | str s => exact ⟨_, (Option.some_injective _ h).symm⟩
  | arr xs => exact ⟨_, (Option.some_injective _ h).symm⟩

/-- A key no entry of the fragment mentions is left untouched by
`update_data`. -/
theorem alookup_update_data_of_not_mem (st : Obj) (data : Obj) (k : String)
    (h : ∀ p ∈ data, p.1 ≠ k) :
    alookup (update_data st data) k = alookup st k := by
  induction data generalizing st with
  | nil => rfl
  | cons p rest ih =>
    have hp : p.1 ≠ k := h p (List.mem_cons_self p rest)
    have hrest : ∀ q ∈ rest, q.1 ≠ k := fun q hq => h q (List.mem_cons_of_mem p hq)
    show alookup
        (match updateEntry st p.1 p.2 with
         | some st' => update_data st' rest
         | none => st) k = alookup st k
    cases he : updateEntry st p.1 p.2 with
    | none => rfl
    | some st' =>
      obtain ⟨w, rfl⟩ := updateEntry_eq_aset st p.1 p.2 st' he
      rw [ih _ hrest, alookup_aset_ne _ _ _ _ (Ne.symm hp)]

/-- `update_data` on a fragment keeps every previously stored value
whose key the fragment does not mention at all. -/
theorem update_data_preserves_absent (st data : Obj) (k : String) (v : JSON)
    (h1 : alookup st k = some v) (h2 : ∀ p ∈ data, p.1 ≠ k) :
    alookup (update_data st data) k = some v := by
  rw [alookup_update_data_of_not_mem st data k h2, h1]

/-! ## Claim C2 -/

/-- C2 counterexample: `update_data` merges object-valued fields only
one level deep.  Starting from `{"k": {"a": {"x": 1, "y": 2}}}` and
merging the fragment `{"k": {"a": {"x": 9}}}`, the previously-known
field `y` at nesting depth 3, absent from the fragment, is lost: the
inner dict `{"a": ...}` is shallow-merged, so `"a"` is replaced
wholesale by `{"x": 9}`.  This refutes preservation "at every nesting
depth". -/
theorem C2_counterexample :
    alookup (subObj (subObj
        ([("k", .obj [("a", .obj [("x", .num 1), ("y", .num 2)])])] : Obj)
        "k") "a") "y" = some (.num 2)
    ∧ alookup (subObj (subObj
        (update_data
          [("k", .obj [("a", .obj [("x", .num 1), ("y", .num 2)])])]
          [("k", .obj [("a", .obj [("x", .num 9)])])])
        "k") "a") "y" = none := by
  exact ⟨rfl, rfl⟩

/-- C2 (amended): merging a fragment preserves every previously-known
top-level field whose key the fragment does not mention; and for an
object-valued field present in both, the merge is a one-level field
union, so second-level fields absent from the fragment's sub-object are
preserved.  (At depth three and beyond the fragment's value replaces
the old one wholesale, per the counterexample.) -/
theorem C2_theorem :
    (∀ (st data : Obj) (k : String) (v : JSON),
       alookup st k = some v → (∀ p ∈ data, p.1 ≠ k) →
       alookup (update_data st data) k = some v)
    ∧ (∀ (st : Obj) (k : String) (oldF newF : Obj) (k2 : String) (v2 : JSON),
       alookup st k = some (.obj oldF) →
       alookup oldF k2 = some v2 → (∀ p ∈ newF, p.1 ≠ k2) →
       alookup (update_data st [(k, .obj newF)]) k
           = some (.obj (dictUpdate oldF newF))
         ∧ alookup (dictUpdate oldF newF) k2 = some v2) := by
  constructor
  · exact update_data_preserves_absent
  · intro st k oldF newF k2 v2 h1 h2 h3
    constructor
    · show alookup
          (match updateEntry st k (.obj newF) with
           | some st' => update_data st' []
           | none => st) k = _
      unfold updateEntry
      rw [h1]
      exact alookup_aset_self st k _
    · rw [alookup_dictUpdate_of_not_mem oldF newF k2 h3, h2]

/-- C2 witness: both halves of `C2_theorem` at concrete inputs. -/
theorem C2_theorem_witness :
    alookup (update_data [("a", .num 1)] [("b", .num 2)]) "a" = some (.num 1)
    ∧ (alookup (update_data [("k", .obj [("x", .num 1)])] [("k", .obj [("z", .num 3)])])
           "k" = some (.obj (dictUpdate [("x", .num 1)] [("z", .num 3)]))
       ∧ alookup (dictUpdate [("x", .num 1)] [("z", .num 3)]) "x" = some (.num 1)) :=
  ⟨C2_theorem.1 [("a", .num 1)] [("b", .num 2)] "a" (.num 1) rfl (by decide),
   C2_theorem.2 [("k", .obj [("x", .num 1)])] "k" [("x", .num 1)] [("z", .num 3)]
     "x" (.num 1) rfl rfl (by decide)⟩

/-! ## Claim C6 -/

/-- C6 counterexample: the serial is stored in the same merged `_data`
mapping as everything else, so an `update_data` fragment carrying a
different `deviceSn` changes the `serial` property: a device
constructed with serial `"SN1"` observes serial `"SN2"` after merging
`{"deviceSn": "SN2"}`. -/
theorem C6_counterexample :
    serialOf (mkDeviceState [("deviceSn", .str "SN1")]) = some (.str "SN1")
    ∧ serialOf (update_data (mkDeviceState [("deviceSn", .str "SN1")])
        [("deviceSn", .str "SN2")]) = some (.str "SN2")
    ∧ (some (JSON.str "SN2") : Option JSON) ≠ some (JSON.str "SN1") := by
  refine ⟨rfl, rfl, fun h => ?_⟩
  simp only [Option.some.injEq, JSON.str.injEq] at h
  exact absurd h (by decide)

/-- One `update_data` call whose fragment never binds `"deviceSn"` to
anything but `.str s0` keeps the serial at `s0`. -/
theorem serial_preserved_update (s0 : String) :
    ∀ (data st : Obj), serialOf st = some (.str s0) →
      (∀ p ∈ data, p.1 = "deviceSn" → p.2 = .str s0) →
      serialOf (update_data st data) = some (.str s0) := by
  intro data
  induction data with
  | nil => intro st h0 _; exact h0
  | cons p rest ih =>
    intro st h0 h
    obtain ⟨k, v⟩ := p
    have hrest : ∀ q ∈ rest, q.1 = "deviceSn" → q.2 = .str s0 :=
      fun q hq => h q (List.mem_cons_of_mem _ hq)
    show serialOf
        (match updateEntry st k v with
         | some st' => update_data st' rest
         | none => st) = _
    by_cases hk : k = "deviceSn"
    · subst hk
      have hv : v = .str s0 := h _ (List.mem_cons_self _ rest) rfl
      subst hv
      show serialOf (update_data (aset st "deviceSn" (.str s0)) rest) = _
      exact ih _ (by rw [serialOf, alookup_aset_self]) hrest
    · cases he : updateEntry st k v with
      | none => exact h0
      | some st' =>
        obtain ⟨w, rfl⟩ := updateEntry_eq_aset st k v st' he
        exact ih _ (by rw [serialOf, alookup_aset_ne _ _ _ _ fun hk' => hk hk'.symm]; exact h0)
          hrest

/-- C6 (amended): the serial never changes across any sequence of
`update_data` merges provided no fragment binds `"deviceSn"` to a
value other than the construction serial — which is what every API
fragment for this device carries.  (Without that proviso the claim is
false, per the counterexample.) -/
theorem C6_theorem (s0 : String) (st : Obj) (frags : List Obj)
    (h0 : serialOf st = some (.str s0))
    (h : ∀ f ∈ frags, ∀ p ∈ f, p.1 = "deviceSn" → p.2 = .str s0) :
    serialOf (frags.foldl update_data st) = some (.str s0) := by
  induction frags generalizing st with
  | nil => exact h0
  | cons f rest ih =>
    have hf := h f (List.mem_cons_self f rest)
    have hrest : ∀ g ∈ rest, ∀ p ∈ g, p.1 = "deviceSn" → p.2 = .str s0 :=
      fun g hg => h g (List.mem_cons_of_mem _ hg)
    exact ih (update_data st f) (serial_preserved_update s0 f st h0 hf) hrest

/-- C6 witness: a device constructed with serial `"SN1"`, refreshed
with a fragment without a serial and one repeating the same serial. -/
theorem C6_theorem_witness :
    serialOf (List.foldl update_data [("deviceSn", .str "SN1")]
      [[("online", .bool true)], [("deviceSn", .str "SN1")]]) = some (.str "SN1") :=
  C6_theorem "SN1" [("deviceSn", .str "SN1")]
    [[("online", .bool true)], [("deviceSn", .str "SN1")]] rfl
    (by
      intro f hf p hp hk
      rcases List.mem_pair.mp hf with rfl | rfl
      · rw [List.mem_singleton.mp hp] at hk
        exact absurd hk (by decide)
      · rw [List.mem_singleton.mp hp])

/-! ## Claim C1 -/

/-- C1 counterexample: a request answered with code 1009, whose retry
(after a successful re-login) is answered with code 1009 again, does
NOT surface as an error: `request` returns `retry_data.get("data")`
(here `null`) with no status or code check on the retry, silently
returning.  One re-login and one retry do occur. -/
theorem C1_counterexample :
    sessionRequest (some "T0")
      ⟨200, some [("code", .num 1009), ("msg", .str "not authenticated"), ("data", .null)]⟩
      ⟨200, some [("code", .num 0), ("data", .obj [("token", .str "T1")])]⟩
      ⟨200, some [("code", .num 1009), ("msg", .str "not authenticated"), ("data", .null)]⟩
      = ⟨Except.ok JSON.null, some "T1", 1, 2⟩
    ∧ ∀ e : ReqError, (Except.ok JSON.null : Except ReqError JSON) ≠ .error e :=
  ⟨rfl, fun _ h => Except.noConfusion h⟩

/-- C1 (amended): on a first response with code 1009, the Session
performs exactly one re-login and exactly one retry of the original
request, replaces the token, and returns the retried response's `data`
field unconditionally — a second failure envelope (1009 or any other
code) is not surfaced as an error but silently returned as its `data`
payload. -/
theorem C1_theorem (tok : Option String) (body : Obj) (login retry : Response)
    (t : String) (rbody : Obj)
    (hcode : codeOf body = some (.num 1009))
    (hlogin : reLogin login = .ok t)
    (hretry : retry.body = some rbody) :
    sessionRequest tok ⟨200, some body⟩ login retry
      = ⟨.ok (dataOf rbody), some t, 1, 2⟩ := by
  unfold sessionRequest
  simp only [hcode, hlogin, hretry]
  norm_num

/-- C1 witness: `C1_theorem` at the counterexample's first and login
responses and a clean retry. -/
theorem C1_theorem_witness :
    sessionRequest (some "T0")
      ⟨200, some [("code", .num 1009), ("msg", .str "not authenticated"), ("data", .null)]⟩
      ⟨200, some [("code", .num 0), ("data", .obj [("token", .str "T1")])]⟩
      ⟨200, some [("code", .num 0), ("data", .obj [("online", .bool true)])]⟩
      = ⟨.ok (dataOf [("code", .num 0), ("data", .obj [("online", .bool true)])]),
         some "T1", 1, 2⟩ :=
  C1_theorem (some "T0")
    [("code", .num 1009), ("msg", .str "not authenticated"), ("data", .null)]
    ⟨200, some [("code", .num 0), ("data", .obj [("token", .str "T1")])]⟩
    ⟨200, some [("code", .num 0), ("data", .obj [("online", .bool true)])]⟩
    "T1" [("code", .num 0), ("data", .obj [("online", .bool true)])] rfl rfl rfl

/-! ## Claim C3 -/

/-- C3 counterexample: a response carrying an invalid-credentials code
(1008 here; `request` singles out no such code) raises the generic
`PetLibroAPIError` (`codeError`), not a distinct exception type: it is
an API-error instance and is not `PetLibroInvalidAuth`.  No retry and
no re-login occur (that half of the claim holds). -/
theorem C3_counterexample :
    sessionRequest (some "T0")
      ⟨200, some [("code", .num 1008), ("msg", .str "bad credentials"), ("data", .null)]⟩
      ⟨200, some []⟩ ⟨200, some []⟩
      = ⟨.error (.codeError (some (.num 1008)) (some (.str "bad credentials"))),
         some "T0", 0, 1⟩
    ∧ (ReqError.codeError (some (.num 1008)) (some (.str "bad credentials"))).isApiError
        = true
    ∧ ReqError.codeError (some (.num 1008)) (some (.str "bad credentials"))
        ≠ .invalidAuth :=
  ⟨rfl, rfl, fun h => ReqError.noConfusion h⟩

/-- C3 (amended): for every response whose code is a non-zero integer
other than 1009, no retry and no re-login occur, and the generic
`PetLibroAPIError` carrying the code and message is raised; a
credential-rejection code is therefore indistinguishable by exception
type from any other application error. -/
theorem C3_theorem (tok : Option String) (body : Obj) (login retry : Response)
    (n : Int) (hcode : codeOf body = some (.num n)) (h0 : n ≠ 0) (h9 : n ≠ 1009) :
    sessionRequest tok ⟨200, some body⟩ login retry
      = ⟨.error (.codeError (some (.num n)) (alookup body "msg")), tok, 0, 1⟩
    ∧ (ReqError.codeError (some (.num n)) (alookup body "msg")).isApiError = true := by
  constructor
  · unfold sessionRequest
    simp only [hcode, if_neg h9, if_neg h0]
    norm_num
  · rfl

/-- C3 witness: `C3_theorem` at the counterexample's input. -/
theorem C3_theorem_witness :
    sessionRequest (some "T0")
      ⟨200, some [("code", .num 1008), ("msg", .str "bad credentials"), ("data", .null)]⟩
      ⟨200, some []⟩ ⟨200, some []⟩
      = ⟨.error (.codeError (some (.num 1008))
           (alookup [("code", .num 1008), ("msg", .str "bad credentials"),
                     ("data", .null)] "msg")), some "T0", 0, 1⟩
    ∧ (ReqError.codeError (some (.num 1008))
         (alookup [("code", .num 1008), ("msg", .str "bad credentials"),
                   ("data", .null)] "msg")).isApiError = true :=
  C3_theorem (some "T0")
    [("code", .num 1008), ("msg", .str "bad credentials"), ("data", .null)]
    ⟨200, some []⟩ ⟨200, some []⟩ 1008 rfl (by decide) (by decide)

/-! ## Claim C5 -/

/-- C5 counterexample: a `PetLibroAPIError` while fetching the
*required* base-info fragment does not fail the device refresh.
`Device.refresh` swallows it (`.ok`, state unchanged, no raise), and
`OneRFIDSmartFeeder.refresh` even completes the cycle, merging all its
variant fragments — the refresh never raises. -/
theorem C5_counterexample :
    deviceRefresh [("deviceSn", .str "SN1")]
        ⟨.error .api, .ok [("online", .bool true)],
         .ok [("todayFeedingQuantity", .num 5)], .ok [("volume", .num 3)]⟩
      = .ok [("deviceSn", .str "SN1")]
    ∧ oneRFIDRefresh [("deviceSn", .str "SN1")]
        ⟨.error .api, .ok [("online", .bool true)],
         .ok [("todayFeedingQuantity", .num 5)], .ok [("volume", .num 3)]⟩
      = .ok [("deviceSn", .str "SN1"),
             ("grainStatus", .obj [("todayFeedingQuantity", .num 5)]),
             ("realInfo", .obj [("online", .bool true)]),
             ("getAttributeSetting", .obj [("volume", .num 3)])]
    ∧ ∀ e : FetchErr,
        (Except.ok [("deviceSn", .str "SN1")] : Except FetchErr Obj) ≠ .error e :=
  ⟨rfl, rfl, fun _ h => Except.noConfusion h⟩

/-- C5 (amended): a failure in a required fragment (base info or
real-time info) does not fail the device refresh — `Device.refresh`
absorbs every fetch failure and completes silently with its state
unchanged by those fragments.  At the variant level, a
`PetLibroAPIError` while fetching the optional grain-status fragment is
absorbed, but the remaining variant fragments of that cycle are skipped
(only the base merge survives); a transport-class (non-API) failure
there propagates out of the refresh. -/
theorem C5_theorem :
    (∀ (st : Obj) (sim : ApiSim) (e : FetchErr),
       sim.baseInfo = .error e ∨ sim.realInfo = .error e →
       deviceRefresh st sim = .ok st)
    ∧ (∀ (st : Obj) (sim : ApiSim),
       sim.grainStatus = .error .api →
       oneRFIDRefresh st sim = .ok (baseStep st sim))
    ∧ (∀ (st : Obj) (sim : ApiSim),
       sim.grainStatus = .error .transport →
       oneRFIDRefresh st sim = .error .transport) := by
  refine ⟨?_, ?_, ?_⟩
  · intro st sim e h
    unfold deviceRefresh baseStep
    split
    · rcases h with h | h <;> simp_all
    · rfl
  · intro st sim h
    unfold oneRFIDRefresh
    rw [h]
  · intro st sim h
    unfold oneRFIDRefresh
    rw [h]

/-- C5 witness: both absorption branches of `C5_theorem` at concrete
inputs. -/
theorem C5_theorem_witness :
    deviceRefresh [("deviceSn", .str "SN1")]
        ⟨.error .transport, .ok [("online", .bool true)], .ok [], .ok []⟩
      = .ok [("deviceSn", .str "SN1")]
    ∧ oneRFIDRefresh [("deviceSn", .str "SN1")]
        ⟨.ok [("name", .str "f")], .ok [("online", .bool true)], .error .api, .ok []⟩
      = .ok (baseStep [("deviceSn", .str "SN1")]
          ⟨.ok [("name", .str "f")], .ok [("online", .bool true)], .error .api, .ok []⟩) :=
  ⟨C5_theorem.1 [("deviceSn", .str "SN1")]
      ⟨.error .transport, .ok [("online", .bool true)], .ok [], .ok []⟩ .transport
      (Or.inl rfl),
   C5_theorem.2.1 [("deviceSn", .str "SN1")]
      ⟨.ok [("name", .str "f")], .ok [("online", .bool true)], .error .api, .ok []⟩ rfl⟩

/-! ## Claim C7 -/

/-- C7: starting with no cache entry for the device's realInfo key, a
first fetch at `t0` hits the network and caches its response `d`; any
second fetch strictly within the 10-second window returns the identical
`d` from the cache with no network call and leaves the cache unchanged;
a fetch at or past the window's edge hits the network again and
replaces both the cached response and the timestamp. -/
theorem C7_theorem (st : APICacheState) (id : String) (t0 : Int) (d : Obj)
    (h0 : alookup st.lastCallTimes (id ++ "_realInfo") = none) :
    ∃ st1 : APICacheState,
      get_device_real_info st t0 (.ok d) id = (.ok d, st1, true)
      ∧ (∀ (t1 : Int) (net : Except FetchErr Obj), t1 - t0 < 10000 →
           get_device_real_info st1 t1 net id = (.ok d, st1, false))
      ∧ (∀ (t2 : Int) (d2 : Obj), 10000 ≤ t2 - t0 →
           ∃ st2 : APICacheState,
             get_device_real_info st1 t2 (.ok d2) id = (.ok d2, st2, true)
             ∧ alookup st2.cachedResponses (id ++ "_realInfo") = some d2
             ∧ alookup st2.lastCallTimes (id ++ "_realInfo") = some t2) := by
  refine ⟨⟨aset st.lastCallTimes (id ++ "_realInfo") t0,
           aset st.cachedResponses (id ++ "_realInfo") d⟩, ?_, ?_, ?_⟩
  · unfold get_device_real_info
    dsimp only
    rw [h0]
  · intro t1 net ht
    unfold get_device_real_info
    dsimp only
    rw [show alookup (aset st.lastCallTimes (id ++ "_realInfo") t0) (id ++ "_realInfo")
          = some t0 from alookup_aset_self _ _ _]
    dsimp only
    rw [if_pos ht]
    rw [show alookup (aset st.cachedResponses (id ++ "_realInfo") d) (id ++ "_realInfo")
          = some d from alookup_aset_self _ _ _]
    rfl
  · intro t2 d2 ht
    refine ⟨⟨aset (aset st.lastCallTimes (id ++ "_realInfo") t0) (id ++ "_realInfo") t2,
             aset (aset st.cachedResponses (id ++ "_realInfo") d) (id ++ "_realInfo") d2⟩,
            ?_, alookup_aset_self _ _ _, alookup_aset_self _ _ _⟩
    unfold get_device_real_info
    dsimp only
    rw [show alookup (aset st.lastCallTimes (id ++ "_realInfo") t0) (id ++ "_realInfo")
          = some t0 from alookup_aset_self _ _ _]
    dsimp only
    rw [if_neg (show ¬ t2 - t0 < 10000 by omega)]

/-- C7 witness: `C7_theorem` on an empty cache, with calls at 0 ms,
5000 ms (within the window) and 10000 ms (window elapsed). -/
theorem C7_theorem_witness :
    (∃ st1 : APICacheState,
      get_device_real_info ⟨[], []⟩ 0 (.ok [("online", .bool true)]) "SN1"
        = (.ok [("online", .bool true)], st1, true)
      ∧ (∀ (t1 : Int) (net : Except FetchErr Obj), t1 - 0 < 10000 →
           get_device_real_info st1 t1 net "SN1"
             = (.ok [("online", .bool true)], st1, false))
      ∧ (∀ (t2 : Int) (d2 : Obj), 10000 ≤ t2 - 0 →
           ∃ st2 : APICacheState,
             get_device_real_info st1 t2 (.ok d2) "SN1" = (.ok d2, st2, true)
             ∧ alookup st2.cachedResponses ("SN1" ++ "_realInfo") = some d2
             ∧ alookup st2.lastCallTimes ("SN1" ++ "_realInfo") = some t2)) :=
  C7_theorem ⟨[], []⟩ "SN1" 0 [("online", .bool true)] rfl

/-! ## Claim C4 -/

/-- C4 counterexample: two devices, the second raising a
transport-class error during refresh.  The first device is still
refreshed (its state updated, its timestamp stamped) — but
`refresh_devices` returns plain success (`True`): the aggregate
`UpdateFailed` is never raised, because `asyncio.gather(...,
return_exceptions=True)` turns the exception into a collected value the
`except` clauses never see.  The claim's "raises an aggregate failure
exactly when the cause is an API/transport-class error" is refuted. -/
theorem C4_counterexample :
    refresh_devices
      (fun sn => if sn = "B" then .errTransport else .ok [("online", .bool true)])
      ⟨[⟨"Granary Smart Feeder", [("deviceSn", .str "A")]⟩,
        ⟨"Granary Smart Feeder", [("deviceSn", .str "B")]⟩], ["A", "B"], []⟩ 0
      = (.ok true,
         ⟨[⟨"Granary Smart Feeder", [("deviceSn", .str "A"), ("online", .bool true)]⟩,
           ⟨"Granary Smart Feeder", [("deviceSn", .str "B")]⟩],
          ["A", "B"], [("A", 0)]⟩,
         [.refreshed [("deviceSn", .str "A"), ("online", .bool true)], .failed false])
    ∧ ∀ e : HubError, (Except.ok true : Except HubError Bool) ≠ .error e :=
  ⟨rfl, fun _ h => Except.noConfusion h⟩

/-- Unfolding of `refresh_devices` on a non-empty device list. -/
theorem refresh_devices_nonempty (beh : String → RefreshBeh) (hs : HubState)
    (now : Int) (h : hs.devices ≠ []) :
    refresh_devices beh hs now
      = (.ok true,
         ⟨hs.devices.map (fun d =>
            match stepDevice beh hs.lastRefresh now d with
            | .refreshed st' => ⟨d.typ, st'⟩
            | _ => d),
          hs.loadedSn,
          hs.devices.foldl
            (fun acc d =>
              match stepDevice beh hs.lastRefresh now d with
              | .refreshed _ => aset acc (devKey d) now
              | _ => acc)
            hs.lastRefresh⟩,
         hs.devices.map (stepDevice beh hs.lastRefresh now)) := by
  rcases hd : hs.devices with _ | ⟨a, l⟩
  · exact absurd hd h
  · unfold refresh_devices
    rw [hd]

/-- C4 (amended): with a non-empty device list, `refresh_devices`
always returns success (`True`) — per-device failures, API- or
transport-class alike, are logged but never surface as an aggregate
failure to the scheduler.  Each device's outcome is computed
independently against the pre-batch refresh table (so one device's
exception never aborts the others, and a device's outcome depends only
on its own scripted behaviour), and successfully refreshed devices get
their merged state. -/
theorem C4_theorem (beh : String → RefreshBeh) (hs : HubState) (now : Int)
    (h : hs.devices ≠ []) :
    (refresh_devices beh hs now).1 = .ok true
    ∧ (refresh_devices beh hs now).2.2
        = hs.devices.map (stepDevice beh hs.lastRefresh now)
    ∧ (refresh_devices beh hs now).2.1.devices
        = hs.devices.map (fun d =>
            match stepDevice beh hs.lastRefresh now d with
            | .refreshed st' => ⟨d.typ, st'⟩
            | _ => d)
    ∧ ∀ (beh' : String → RefreshBeh) (d : LoadedDevice), d ∈ hs.devices →
        beh' (devKey d) = beh (devKey d) →
        stepDevice beh' hs.lastRefresh now d = stepDevice beh hs.lastRefresh now d := by
  have key := refresh_devices_nonempty beh hs now h
  refine ⟨by rw [key], by rw [key], by rw [key], ?_⟩
  intro beh' d _ hagree
  unfold stepDevice
  rw [hagree]

/-- C4 witness: `C4_theorem` on a one-device hub whose refresh raises
an API-class error. -/
theorem C4_theorem_witness :
    (refresh_devices (fun _ => .errApi)
        ⟨[⟨"Granary Smart Feeder", [("deviceSn", .str "A")]⟩], ["A"], []⟩ 0).1
      = .ok true
    ∧ (refresh_devices (fun _ => .errApi)
        ⟨[⟨"Granary Smart Feeder", [("deviceSn", .str "A")]⟩], ["A"], []⟩ 0).2.2
        = List.map (stepDevice (fun _ => .errApi) [] 0)
            [⟨"Granary Smart Feeder", [("deviceSn", .str "A")]⟩]
    ∧ (refresh_devices (fun _ => .errApi)
        ⟨[⟨"Granary Smart Feeder", [("deviceSn", .str "A")]⟩], ["A"], []⟩ 0).2.1.devices
        = List.map (fun d =>
            match stepDevice (fun _ => .errApi) [] 0 d with
            | .refreshed st' => ⟨d.typ, st'⟩
            | _ => d)
            [⟨"Granary Smart Feeder", [("deviceSn", .str "A")]⟩]
    ∧ ∀ (beh' : String → RefreshBeh) (d : LoadedDevice),
        d ∈ [(⟨"Granary Smart Feeder", [("deviceSn", .str "A")]⟩ : LoadedDevice)] →
        beh' (devKey d) = (fun _ => RefreshBeh.errApi) (devKey d) →
        stepDevice beh' [] 0 d = stepDevice (fun _ => .errApi) [] 0 d :=
  C4_theorem (fun _ => .errApi)
    ⟨[⟨"Granary Smart Feeder", [("deviceSn", .str "A")]⟩], ["A"], []⟩ 0
    (List.cons_ne_nil _ _)

/-! ## Claim C9 -/

/-- C9: for the Granary Smart Feeder, a raw `todayFeedingQuantity` of
2366 ml converts to 10 cups (`round(2366 / 236.588)`), and a missing
key yields `round(0 / 236.588) = 0`. -/
theorem C9_theorem :
    today_feeding_quantity
        [("grainStatus", .obj [("todayFeedingQuantity", .num 2366)])] = 10
    ∧ today_feeding_quantity [] = 0
    ∧ convert_unit 2366 = 10 ∧ convert_unit 0 = 0 := by
  have h1 : today_feeding_quantity
      [("grainStatus", .obj [("todayFeedingQuantity", .num 2366)])]
      = convert_unit ((2366 : ℤ) : ℚ) := rfl
  have h2 : today_feeding_quantity [] = convert_unit ((0 : ℤ) : ℚ) := rfl
  refine ⟨?_, ?_, ?_, ?_⟩ <;>
    first
      | (rw [h1]; norm_num [convert_unit, round_eq])
      | (rw [h2]; norm_num [convert_unit, round_eq])
      | norm_num [convert_unit, round_eq]

/-! ## Claim C8 -/

theorem loadedSn_mono_loadOne (now : Int) (hs : HubState) (e : Obj) (s : String)
    (h : s ∈ hs.loadedSn) : s ∈ (loadOne now hs e).loadedSn := by
  by_cases hc : snOf e ∈ hs.loadedSn
  · simpa [loadOne, hc] using h
  · simp only [loadOne, if_neg hc]
    exact List.mem_append_left _ h

theorem snOf_mem_loadOne (now : Int) (hs : HubState) (e : Obj) :
    snOf e ∈ (loadOne now hs e).loadedSn := by
  by_cases hc : snOf e ∈ hs.loadedSn
  · simp [loadOne, hc]
  · simp only [loadOne, if_neg hc]
    exact List.mem_append_right _ (List.mem_singleton_self _)

theorem loadedSn_mono_load (t : Int) (l : List Obj) :
    ∀ (hs : HubState) (s : String), s ∈ hs.loadedSn →
      s ∈ (load_devices hs l t).loadedSn := by
  induction l with
  | nil => exact fun _ _ h => h
  | cons e rest ih =>
    exact fun hs s h => ih (loadOne t hs e) s (loadedSn_mono_loadOne t hs e s h)

theorem snOf_mem_load (t : Int) (l : List Obj) :
    ∀ (hs : HubState) (e : Obj), e ∈ l →
      snOf e ∈ (load_devices hs l t).loadedSn := by
  induction l with
  | nil => intro hs e h; cases h
  | cons f rest ih =>
    intro hs e h
    rcases List.mem_cons.mp h with rfl | h'
    · exact loadedSn_mono_load t rest (loadOne t hs e) _ (snOf_mem_loadOne t hs e)
    · exact ih _ _ h'

/-- Loading a list whose serials are all already loaded changes
nothing: every iteration hits the `continue`. -/
theorem load_devices_noop (t : Int) (l : List Obj) :
    ∀ hs : HubState, (∀ e ∈ l, snOf e ∈ hs.loadedSn) → load_devices hs l t = hs := by
  induction l with
  | nil => intro hs _; rfl
  | cons f rest ih =>
    intro hs h
    have hf : snOf f ∈ hs.loadedSn := h f (List.mem_cons_self f rest)
    show load_devices (loadOne t hs f) rest t = hs
    rw [show loadOne t hs f = hs by simp [loadOne, hf]]
    exact ih hs (fun e he => h e (List.mem_cons_of_mem _ he))

theorem devices_typ_loadOne (t : Int) (hs : HubState) (e : Obj) :
    ∀ d ∈ (loadOne t hs e).devices, d ∈ hs.devices ∨ d.typ ∈ knownProducts := by
  intro d hd
  by_cases hc : snOf e ∈ hs.loadedSn
  · rw [loadOne, if_pos hc] at hd
    exact Or.inl hd
  · rw [loadOne, if_neg hc] at hd
    by_cases hn : nameOf e ∈ knownProducts
    · rw [show (if nameOf e ∈ knownProducts then
            hs.devices ++ [⟨nameOf e, mkDeviceState e⟩] else hs.devices)
          = hs.devices ++ [⟨nameOf e, mkDeviceState e⟩] from if_pos hn] at hd
      rcases List.mem_append.mp hd with h | h
      · exact Or.inl h
      · right
        rw [List.mem_singleton.mp h]
        exact hn
    · rw [show (if nameOf e ∈ knownProducts then
            hs.devices ++ [⟨nameOf e, mkDeviceState e⟩] else hs.devices)
          = hs.devices from if_neg hn] at hd
      exact Or.inl hd

theorem devices_typ_load (t : Int) (l : List Obj) :
    ∀ (hs : HubState) (d : LoadedDevice), d ∈ (load_devices hs l t).devices →
      d ∈ hs.devices ∨ d.typ ∈ knownProducts := by
  induction l with
  | nil => exact fun _ _ h => Or.inl h
  | cons f rest ih =>
    intro hs d hd
    rcases ih (loadOne t hs f) d hd with h | h
    · exact devices_typ_loadOne t hs f d h
    · exact Or.inr h

/-- C8: (i) a second `load_devices` over the same device-list response
is a no-op — every serial is already in `loaded_device_sn`, so the full
hub state (device list, identity set, timestamps) is unchanged;
(ii) every device ever present in the hub's list was either there
before the load or was constructed through the product-name table, so a
device with an unrecognized product name never appears; (iii) an
unrecognized entry contributes no device and loading simply continues
with the remaining entries. -/
theorem C8_theorem :
    (∀ (hs : HubState) (l : List Obj) (t1 t2 : Int),
       load_devices (load_devices hs l t1) l t2 = load_devices hs l t1)
    ∧ (∀ (hs : HubState) (l : List Obj) (t : Int) (d : LoadedDevice),
       d ∈ (load_devices hs l t).devices → d ∈ hs.devices ∨ d.typ ∈ knownProducts)
    ∧ (∀ (hs : HubState) (e : Obj) (l : List Obj) (t : Int),
       nameOf e ∉ knownProducts →
       (loadOne t hs e).devices = hs.devices
       ∧ load_devices hs (e :: l) t = load_devices (loadOne t hs e) l t) := by
  refine ⟨?_, ?_, ?_⟩
  · intro hs l t1 t2
    exact load_devices_noop t2 l _ (fun e he => snOf_mem_load t1 l hs e he)
  · exact fun hs l t d hd => devices_typ_load t l hs d hd
  · intro hs e l t hn
    refine ⟨?_, rfl⟩
    by_cases hc : snOf e ∈ hs.loadedSn
    · rw [loadOne, if_pos hc]
    · rw [loadOne, if_neg hc]
      exact if_neg hn

/-- C8 witness: all three parts of `C8_theorem` on a two-entry device
list — one recognized product, one unrecognized. -/
theorem C8_theorem_witness :
    load_devices
        (load_devices ⟨[], [], []⟩
          [[("deviceSn", .str "SN1"), ("productName", .str "One RFID Smart Feeder")],
           [("deviceSn", .str "SN2"), ("productName", .str "Mystery Feeder")]] 1)
        [[("deviceSn", .str "SN1"), ("productName", .str "One RFID Smart Feeder")],
         [("deviceSn", .str "SN2"), ("productName", .str "Mystery Feeder")]] 2
      = load_devices ⟨[], [], []⟩
          [[("deviceSn", .str "SN1"), ("productName", .str "One RFID Smart Feeder")],
           [("deviceSn", .str "SN2"), ("productName", .str "Mystery Feeder")]] 1
    ∧ ((⟨"One RFID Smart Feeder",
          [("deviceSn", .str "SN1"), ("productName", .str "One RFID Smart Feeder")]⟩ :
            LoadedDevice)
         ∈ (⟨[], [], []⟩ : HubState).devices
       ∨ (⟨"One RFID Smart Feeder",
            [("deviceSn", .str "SN1"), ("productName", .str "One RFID Smart Feeder")]⟩ :
              LoadedDevice).typ ∈ knownProducts)
    ∧ ((loadOne 1 ⟨[], [], []⟩
          [("deviceSn", .str "SN2"), ("productName", .str "Mystery Feeder")]).devices
         = (⟨[], [], []⟩ : HubState).devices
       ∧ load_devices ⟨[], [], []⟩
           [[("deviceSn", .str "SN2"), ("productName", .str "Mystery Feeder")]] 1
         = load_devices
             (loadOne 1 ⟨[], [], []⟩
               [("deviceSn", .str "SN2"), ("productName", .str "Mystery Feeder")]) [] 1) :=
  ⟨C8_theorem.1 ⟨[], [], []⟩
     [[("deviceSn", .str "SN1"), ("productName", .str "One RFID Smart Feeder")],
      [("deviceSn", .str "SN2"), ("productName", .str "Mystery Feeder")]] 1 2,
   C8_theorem.2.1 ⟨[], [], []⟩
     [[("deviceSn", .str "SN1"), ("productName", .str "One RFID Smart Feeder")],
      [("deviceSn", .str "SN2"), ("productName", .str "Mystery Feeder")]] 1
     ⟨"One RFID Smart Feeder",
      [("deviceSn", .str "SN1"), ("productName", .str "One RFID Smart Feeder")]⟩
     (List.mem_singleton_self _),
   C8_theorem.2.2 ⟨[], [], []⟩
     [("deviceSn", .str "SN2"), ("productName", .str "Mystery Feeder")] [] 1
     (by decide)⟩

/-! ## Claim C10 -/

/-- C10: `load_devices` stamps a freshly loaded device's
`last_refresh_times` entry with the load time, so a `refresh_devices`
run strictly less than 10 s later skips that device entirely — its
outcome is `skipped` (no fetch issued: the behaviour script is never
consulted) and its entry in the device list is unchanged — even though
the device has never actually been refreshed. -/
theorem C10_theorem (hs0 : HubState) (sn pname : String) (tload t : Int)
    (beh : String → RefreshBeh)
    (hp : pname ∈ knownProducts) (hsn : sn ∉ hs0.loadedSn)
    (ht : t - tload < 10000) :
    load_devices hs0 [[("deviceSn", .str sn), ("productName", .str pname)]] tload
      = ⟨hs0.devices ++ [⟨pname, [("deviceSn", .str sn), ("productName", .str pname)]⟩],
         hs0.loadedSn ++ [sn], aset hs0.lastRefresh sn tload⟩
    ∧ alookup (aset hs0.lastRefresh sn tload) sn = some tload
    ∧ stepDevice beh (aset hs0.lastRefresh sn tload) t
        ⟨pname, [("deviceSn", .str sn), ("productName", .str pname)]⟩ = .skipped
    ∧ (refresh_devices beh
         ⟨hs0.devices ++ [⟨pname, [("deviceSn", .str sn), ("productName", .str pname)]⟩],
          hs0.loadedSn ++ [sn], aset hs0.lastRefresh sn tload⟩ t).2.2
        = hs0.devices.map (stepDevice beh (aset hs0.lastRefresh sn tload) t)
          ++ [.skipped]
    ∧ (refresh_devices beh
         ⟨hs0.devices ++ [⟨pname, [("deviceSn", .str sn), ("productName", .str pname)]⟩],
          hs0.loadedSn ++ [sn], aset hs0.lastRefresh sn tload⟩ t).2.1.devices
        = hs0.devices.map (fun d =>
            match stepDevice beh (aset hs0.lastRefresh sn tload) t d with
            | .refreshed st' => ⟨d.typ, st'⟩
            | _ => d)
          ++ [⟨pname, [("deviceSn", .str sn), ("productName", .str pname)]⟩] := by
  have hload : load_devices hs0
      [[("deviceSn", .str sn), ("productName", .str pname)]] tload
      = ⟨hs0.devices ++ [⟨pname, [("deviceSn", .str sn), ("productName", .str pname)]⟩],
         hs0.loadedSn ++ [sn], aset hs0.lastRefresh sn tload⟩ := by
    show loadOne tload hs0 [("deviceSn", .str sn), ("productName", .str pname)] = _
    unfold loadOne
    rw [if_neg (show ¬ snOf [("deviceSn", JSON.str sn), ("productName", JSON.str pname)]
          ∈ hs0.loadedSn from hsn)]
    rw [if_pos (show nameOf [("deviceSn", JSON.str sn), ("productName", JSON.str pname)]
          ∈ knownProducts from hp)]
    rfl
  have hstep : stepDevice beh (aset hs0.lastRefresh sn tload) t
      ⟨pname, [("deviceSn", .str sn), ("productName", .str pname)]⟩ = .skipped := by
    unfold stepDevice
    dsimp only
    rw [show alookup (aset hs0.lastRefresh sn tload)
          (devKey ⟨pname, [("deviceSn", JSON.str sn), ("productName", JSON.str pname)]⟩)
        = some tload from alookup_aset_self _ _ _]
    dsimp only
    rw [if_pos ht]
  have hne : (hs0.devices
      ++ [(⟨pname, [("deviceSn", .str sn), ("productName", .str pname)]⟩ : LoadedDevice)])
      ≠ [] := by simp
  have key := refresh_devices_nonempty beh
    ⟨hs0.devices ++ [⟨pname, [("deviceSn", .str sn), ("productName", .str pname)]⟩],
     hs0.loadedSn ++ [sn], aset hs0.lastRefresh sn tload⟩ t hne
  dsimp only at key
  refine ⟨hload, alookup_aset_self _ _ _, hstep, ?_, ?_⟩
  · rw [key]
    dsimp only
    rw [List.map_append]
    simp [hstep]
  · rw [key]
    dsimp only
    rw [List.map_append]
    simp [hstep]

/-- C10 witness: `C10_theorem` for a fresh hub loading one RFID feeder
at 0 ms and refreshing at 5000 ms: the never-refreshed device is
skipped. -/
theorem C10_theorem_witness :
    stepDevice (fun _ => RefreshBeh.errTransport) (aset [] "SN1" 0) 5000
        ⟨"One RFID Smart Feeder",
         [("deviceSn", .str "SN1"), ("productName", .str "One RFID Smart Feeder")]⟩
      = .skipped := by
  exact (C10_theorem ⟨[], [], []⟩ "SN1" "One RFID Smart Feeder" 0 5000
    (fun _ => .errTransport) (by decide) (List.not_mem_nil _) (by decide)).2.2.1

end Petlibro
